import Mathlib

/-!
Shallow embedding of the mechanical-fit verification engine of
`codex_hull_lab` (files `tools/verify_reference_fit.py` and
`tools/validate_full.py`).

Modelling conventions:
* Python floats are modelled as rationals (`ℚ`); float literals such as
  `1e-6` become the exact rationals they denote in the source text.
* `trimesh` is the external Mesh Geometry Provider (spec section 6): a mesh
  is represented by its vertex list, its face-centroid list, its provider
  signed-distance query, its provider downward-ray intersection query and
  its provider watertight flag.  All geometry computed by the repository
  itself (grids, corridors, gates, aggregation) is translated from the
  source.
* `numpy` reductions `np.min` and `np.max` raise on empty arrays; the
  embeddings `npMin` and `npMax` return a junk value (`0`) there, and every
  theorem that touches that case carries an explicit nonemptiness
  hypothesis.
-/

namespace Gcsc

/-- A 3-D point with rational coordinates. -/
structure Vec3 where
  x : ℚ
  y : ℚ
  z : ℚ
deriving Repr, DecidableEq

/-- The Mesh Geometry Provider boundary (trimesh, spec section 6).
`signedDistance` follows the trimesh sign convention used by the source:
positive inside the solid, negative in free space, so `- signedDistance`
is the "free radius" of the source.  `rayDownZHits origin` is the list of
z-coordinates of hull-surface intersections of a ray cast from `origin`
straight down, as returned by `trimesh ray.intersects_location` with
direction `(0, 0, -1)` and `multiple_hits=True`. -/
structure Mesh where
  vertices : List Vec3
  triangles_center : List Vec3
  signedDistance : Vec3 → ℚ
  rayDownZHits : Vec3 → List ℚ
  is_watertight : Bool

/-- Threshold set of `verify_reference_fit.py` (dataclass
`VerificationThresholds`). -/
structure VerificationThresholds where
  axis_tolerance_mm : ℚ
  slot_depth_target_mm : ℚ
  slot_depth_tolerance_mm : ℚ
  corridor_radial_clearance_min_mm : ℚ
  frame_penetration_max_mm : ℚ
  frame_min_gap_mm : ℚ
  floor_clearance_min_mm : ℚ
  axis_scan_radius_mm : ℚ
  axis_scan_step_mm : ℚ
  corridor_samples : ℕ
  frame_bottom_z_tolerance_mm : ℚ
deriving Repr

/-- Python `round` (banker's rounding: ties go to the even integer). -/
def pyRound (q : ℚ) : ℤ :=
  if q - ⌊q⌋ = 1 / 2 then (if 2 ∣ ⌊q⌋ then ⌊q⌋ else ⌊q⌋ + 1) else round q

/-- Python `round(v, 6)`, used by `sampled_angles` in `validate_full.py`. -/
def round6 (q : ℚ) : ℚ := (pyRound (q * 1000000) : ℚ) / 1000000

/-- `np.linspace(a, b, n)`: `n` evenly spaced samples from `a` to `b`,
endpoints included (singleton `[a]` for `n = 1`, empty for `n = 0`). -/
def linspace (a b : ℚ) (n : ℕ) : List ℚ :=
  if n ≤ 1 then (if n = 0 then [] else [a])
  else (List.range n).map (fun i : ℕ => a + (b - a) * (i : ℚ) / ((n : ℚ) - 1))

/-- `np.min` on a nonempty array; junk value `0` on the empty list (where
numpy raises). -/
def npMin : List ℚ → ℚ
  | [] => 0
  | q :: l => l.foldl min q

/-- `np.max` on a nonempty array; junk value `0` on the empty list (where
numpy raises). -/
def npMax : List ℚ → ℚ
  | [] => 0
  | q :: l => l.foldl max q

/-- `np.argmax`: index of the first occurrence of the maximum. -/
def argmax_idx (l : List ℚ) : ℕ := l.findIdx (fun v => v = npMax l)

/-- Helper: minimum gap drawn from a list of provider signed distances, as
computed by `analyze_frame_fit` and `dynamic_kinematic_validation`:
`min(-signed[signed <= 0])` when some sample is non-penetrating, else the
literal `0.0` of the source. -/
def minGapOf (sds : List ℚ) : ℚ :=
  let non_penetrating := sds.filter (fun v => v ≤ 0)
  if non_penetrating.isEmpty then 0 else npMin (non_penetrating.map (fun v => -v))

/-- The `slot_scan_grid` of `verify_reference_fit.py`: a square grid of
points on the seat plane.  `np.meshgrid(xs, ys, indexing="xy")` followed by
`reshape(-1)` enumerates the grid row-major with `y` as the outer index. -/
def slot_scan_grid (expected_x expected_y seat_z radius step : ℚ) : List Vec3 :=
  let points_per_axis := (pyRound ((2 * radius) / step)).toNat + 1
  let xs := linspace (expected_x - radius) (expected_x + radius) points_per_axis
  let ys := linspace (expected_y - radius) (expected_y + radius) points_per_axis
  (ys.map (fun y => xs.map (fun x => Vec3.mk x y seat_z))).flatten

/-- Result record of `measure_slot_geometry`.  The source stores
`axis_error_mm = math.hypot(dx, dy)`, an irrational square root; the
embedding stores the squared error `dx^2 + dy^2` instead, and encodes the
source comparison `axis_error <= axis_tolerance` in the equivalent squared
form `0 <= tol ∧ dx^2 + dy^2 <= tol^2` (equivalent over the reals because
`hypot` is nonnegative). -/
structure SlotCheck where
  expected_x_mm : ℚ
  expected_y_mm : ℚ
  observed_x_mm : ℚ
  observed_y_mm : ℚ
  axis_error_sq_mm2 : ℚ
  seat_free_radius_mm : ℚ
  seat_radial_clearance_mm : ℚ
  corridor_min_free_radius_mm : ℚ
  corridor_min_radial_clearance_mm : ℚ
  axis_pass : Bool
  corridor_pass : Bool
deriving Repr, DecidableEq

/-- Embedding of `measure_slot_geometry` (verify_reference_fit.py lines
366-417): local grid scan for the best seat position, then the vertical
insertion-corridor scan from seat height to entry height at the observed
seat position. -/
def measure_slot_geometry (hull_mesh : Mesh) (expected_x expected_y seat_z entry_z ball_radius : ℚ)
    (thresholds : VerificationThresholds) : SlotCheck :=
  let grid := slot_scan_grid expected_x expected_y seat_z
    thresholds.axis_scan_radius_mm thresholds.axis_scan_step_mm
  let scan_free_radius := grid.map (fun p => - hull_mesh.signedDistance p)
  let best_idx := argmax_idx scan_free_radius
  let best := grid.getD best_idx (Vec3.mk expected_x expected_y seat_z)
  let observed_x := best.x
  let observed_y := best.y
  let seat_free_radius := scan_free_radius.getD best_idx 0
  let axis_error_sq := (observed_x - expected_x) ^ 2 + (observed_y - expected_y) ^ 2
  let zs := linspace seat_z entry_z thresholds.corridor_samples
  let corridor_free_radius := zs.map (fun z => - hull_mesh.signedDistance (Vec3.mk observed_x observed_y z))
  let corridor_min_free_radius := npMin corridor_free_radius
  let corridor_min_radial_clearance := corridor_min_free_radius - ball_radius
  { expected_x_mm := expected_x
    expected_y_mm := expected_y
    observed_x_mm := observed_x
    observed_y_mm := observed_y
    axis_error_sq_mm2 := axis_error_sq
    seat_free_radius_mm := seat_free_radius
    seat_radial_clearance_mm := seat_free_radius - ball_radius
    corridor_min_free_radius_mm := corridor_min_free_radius
    corridor_min_radial_clearance_mm := corridor_min_radial_clearance
    axis_pass := decide (0 ≤ thresholds.axis_tolerance_mm ∧
      axis_error_sq ≤ thresholds.axis_tolerance_mm ^ 2)
    corridor_pass := decide (thresholds.corridor_radial_clearance_min_mm ≤ corridor_min_radial_clearance) }

/-- Translation of a point by a vector (numpy broadcast `points + translation`). -/
def Vec3.add (p q : Vec3) : Vec3 := Vec3.mk (p.x + q.x) (p.y + q.y) (p.z + q.z)

/-- The floor-clearance sample of a single bottom contact point, the loop
body of `measure_floor_clearances`: cast a ray straight down from an origin
nudged `1e-4` below the point, keep only hull intersections strictly below
the point (`z < point.z - 1e-6`), and measure down to the highest such
intersection; `none` when the ray produces no intersection strictly below. -/
def pointFloorClearance (hull_mesh : Mesh) (point : Vec3) : Option ℚ :=
  let origin := Vec3.mk point.x point.y (point.z - 1 / 10000)
  let hits := hull_mesh.rayDownZHits origin
  let z_hits := hits.filter (fun z => z < point.z - 1 / 1000000)
  if z_hits.isEmpty then none else some (point.z - npMax z_hits)

/-- Embedding of `measure_floor_clearances` (verify_reference_fit.py lines
420-439): one clearance sample per bottom point that admits one. -/
def measure_floor_clearances (hull_mesh : Mesh) (bottom_points : List Vec3) : List ℚ :=
  bottom_points.filterMap (pointFloorClearance hull_mesh)

/-- Result record of one mirrored frame placement inside
`analyze_frame_fit`. -/
structure FrameCheck where
  placement_x_mm : ℚ
  sample_point_count : ℕ
  max_penetration_mm : ℚ
  penetrating_points : ℕ
  penetrating_points_over_tolerance : ℕ
  min_gap_mm : ℚ
  frame_bottom_z_mm : ℚ
  bottom_probe_count : ℕ
  floor_clearance_min_mm : Option ℚ
  floor_clearance_samples_mm : List ℚ
  interference_pass : Bool
  floor_clearance_pass : Bool

/-- The sample points of one frame placement: all frame vertices plus all
face centroids, translated by the placement offset
`(x_sign * frame_spacing, 0, frame_alignment_z)`. -/
def placementSamples (frame_mesh : Mesh) (frame_spacing_mm frame_alignment_z_mm x_sign : ℚ) : List Vec3 :=
  let translation := Vec3.mk (x_sign * frame_spacing_mm) 0 frame_alignment_z_mm
  (frame_mesh.vertices ++ frame_mesh.triangles_center).map (fun p => p.add translation)

/-- Loop body of `analyze_frame_fit` (verify_reference_fit.py lines
452-493) for one of the two mirrored placements `x_sign ∈ {-1, 1}`. -/
def analyze_frame_placement (hull_mesh frame_mesh : Mesh)
    (frame_spacing_mm frame_alignment_z_mm : ℚ) (thresholds : VerificationThresholds)
    (x_sign : ℚ) : FrameCheck :=
  let x_offset := x_sign * frame_spacing_mm
  let translation := Vec3.mk x_offset 0 frame_alignment_z_mm
  let transformed_samples := placementSamples frame_mesh frame_spacing_mm frame_alignment_z_mm x_sign
  let sample_signed := transformed_samples.map hull_mesh.signedDistance
  let max_penetration := max 0 (npMax sample_signed)
  let penetrating_points := sample_signed.countP (fun v => decide (0 < v))
  let penetrating_points_over_tolerance :=
    sample_signed.countP (fun v => decide (thresholds.frame_penetration_max_mm < v))
  let min_gap := minGapOf sample_signed
  let frame_vertices := frame_mesh.vertices.map (fun p => p.add translation)
  let min_z := npMin (frame_vertices.map Vec3.z)
  let bottom_points := frame_vertices.filter
    (fun p => |p.z - min_z| ≤ thresholds.frame_bottom_z_tolerance_mm)
  let floor_clearances := measure_floor_clearances hull_mesh bottom_points
  let floor_clearance_min : Option ℚ :=
    if floor_clearances.isEmpty then none else some (npMin floor_clearances)
  { placement_x_mm := x_offset
    sample_point_count := transformed_samples.length
    max_penetration_mm := max_penetration
    penetrating_points := penetrating_points
    penetrating_points_over_tolerance := penetrating_points_over_tolerance
    min_gap_mm := min_gap
    frame_bottom_z_mm := min_z
    bottom_probe_count := bottom_points.length
    floor_clearance_min_mm := floor_clearance_min
    floor_clearance_samples_mm := floor_clearances
    interference_pass := decide (penetrating_points_over_tolerance = 0 ∧
      thresholds.frame_min_gap_mm ≤ min_gap)
    floor_clearance_pass :=
      match floor_clearance_min with
      | none => false
      | some v => decide (thresholds.floor_clearance_min_mm ≤ v) }

/-- Embedding of `analyze_frame_fit` (verify_reference_fit.py lines
442-495): both mirrored placements, in source loop order. -/
def analyze_frame_fit (hull_mesh frame_mesh : Mesh)
    (frame_spacing_mm frame_alignment_z_mm : ℚ) (thresholds : VerificationThresholds) :
    List FrameCheck :=
  [(-1 : ℚ), 1].map
    (analyze_frame_placement hull_mesh frame_mesh frame_spacing_mm frame_alignment_z_mm thresholds)

/-- Reference constants are a resolved named map (`parse_reference_constants`
guarantees every required name is present before the analysis runs, so the
map is modelled total). -/
def ReferenceConstants : Type := String → ℚ

/-- The canonical reference constant table `CANONICAL_REFERENCE_CONSTANTS`
of `verify_reference_fit.py`, in source insertion order. -/
def canonical_reference_constants : List (String × ℚ) :=
  [("REFERENCE_PIVOT_Y", 33),
   ("REFERENCE_PIVOT_Z", 38),
   ("REFERENCE_SLOT_DIAMETER", 15 / 2),
   ("REFERENCE_BALL_DIAMETER", 29 / 4),
   ("REFERENCE_SLOT_ENTRY_Z", 45),
   ("REFERENCE_FRAME_SPACING", 16),
   ("REFERENCE_FRAME_BOTTOM_Z", 17),
   ("REFERENCE_COORDINATE_RIM_Z", 45),
   ("REFERENCE_MODEL_RIM_Z", 0)]

/-- One entry of the per-constant delta list. -/
structure ConstantDelta where
  name : String
  expected : ℚ
  observed : ℚ
  delta_mm : ℚ
deriving Repr, DecidableEq

/-- Embedding of `evaluate_reference_constant_lock` (verify_reference_fit.py
lines 338-354): one delta entry per canonical constant, and a single locked
flag that is cleared whenever some `|delta| > 1e-6`. -/
def evaluate_reference_constant_lock (constants : ReferenceConstants) :
    Bool × List ConstantDelta :=
  let deltas := canonical_reference_constants.map (fun nv =>
    { name := nv.1
      expected := nv.2
      observed := constants nv.1
      delta_mm := constants nv.1 - nv.2 : ConstantDelta })
  let locked := deltas.all (fun d => !decide (1 / 1000000 < |d.delta_mm|))
  (locked, deltas)

/-- The seven gate booleans of `analyze_reference_fit`. -/
structure ReferenceFitGates where
  hull_mesh_watertight : Bool
  reference_constants_locked : Bool
  slot_axis_positions : Bool
  slot_depth : Bool
  slot_insertion_corridor : Bool
  frame_interference : Bool
  frame_floor_clearance : Bool
deriving Repr, DecidableEq

/-- Result of `analyze_reference_fit`: the per-check measurements, the gate
booleans, and the overall verdict. -/
structure ReferenceFitAnalysis where
  slot_checks : List SlotCheck
  frame_checks : List FrameCheck
  slot_depth_mm : ℚ
  hull_mesh_faces : ℕ
  frame_mesh_faces : ℕ
  slot_plug_mesh_faces : ℕ
  slot_plug_mesh_watertight : Bool
  gates : ReferenceFitGates
  overall_pass : Bool

/-- Embedding of `analyze_reference_fit` (verify_reference_fit.py lines
498-588).  `pass` in the source is `all(gates.values())` over exactly the
seven gates; the slot loop runs over the four sign combinations in source
order, the frame loop over both mirrored placements. -/
def analyze_reference_fit (hull_mesh frame_mesh slot_plug_mesh : Mesh)
    (reference_constants : ReferenceConstants) (thresholds : VerificationThresholds)
    (reference_constants_locked : Bool) : ReferenceFitAnalysis :=
  let frame_spacing := reference_constants "REFERENCE_FRAME_SPACING"
  let pivot_y := reference_constants "REFERENCE_PIVOT_Y"
  let ball_diameter := reference_constants "REFERENCE_BALL_DIAMETER"
  let pivot_z := reference_constants "REFERENCE_PIVOT_Z"
  let slot_entry_z := reference_constants "REFERENCE_SLOT_ENTRY_Z"
  let coordinate_rim_z := reference_constants "REFERENCE_COORDINATE_RIM_Z"
  let model_rim_z := reference_constants "REFERENCE_MODEL_RIM_Z"
  let seat_z_model := pivot_z - coordinate_rim_z + model_rim_z
  let entry_z_model := slot_entry_z - coordinate_rim_z + model_rim_z
  let frame_alignment_z := model_rim_z - coordinate_rim_z
  let slot_depth := slot_entry_z - pivot_z
  let ball_radius := ball_diameter / 2
  let slot_results := ([(-1, -1), (-1, 1), (1, -1), (1, 1)] : List (ℚ × ℚ)).map
    (fun signs => measure_slot_geometry hull_mesh (signs.1 * frame_spacing)
      (signs.2 * pivot_y) seat_z_model entry_z_model ball_radius thresholds)
  let frame_results := analyze_frame_fit hull_mesh frame_mesh frame_spacing
    frame_alignment_z thresholds
  let slot_axis_pass := slot_results.all (fun r => r.axis_pass)
  let slot_corridor_pass := slot_results.all (fun r => r.corridor_pass)
  let slot_depth_pass :=
    decide (|slot_depth - thresholds.slot_depth_target_mm| ≤ thresholds.slot_depth_tolerance_mm)
  let frame_interference_pass := frame_results.all (fun r => r.interference_pass)
  let frame_floor_pass := frame_results.all (fun r => r.floor_clearance_pass)
  let gates : ReferenceFitGates :=
    { hull_mesh_watertight := hull_mesh.is_watertight
      reference_constants_locked := reference_constants_locked
      slot_axis_positions := slot_axis_pass
      slot_depth := slot_depth_pass
      slot_insertion_corridor := slot_corridor_pass
      frame_interference := frame_interference_pass
      frame_floor_clearance := frame_floor_pass }
  { slot_checks := slot_results
    frame_checks := frame_results
    slot_depth_mm := slot_depth
    hull_mesh_faces := hull_mesh.triangles_center.length
    frame_mesh_faces := frame_mesh.triangles_center.length
    slot_plug_mesh_faces := slot_plug_mesh.triangles_center.length
    slot_plug_mesh_watertight := slot_plug_mesh.is_watertight
    gates := gates
    overall_pass := gates.hull_mesh_watertight && gates.reference_constants_locked &&
      gates.slot_axis_positions && gates.slot_depth && gates.slot_insertion_corridor &&
      gates.frame_interference && gates.frame_floor_clearance }

/-- The two boolean sources of the signature drift override
(`--allow-signature-drift` CLI flag and `GCSC_ALLOW_SIGNATURE_DRIFT`
environment variable). -/
structure DriftOverride where
  cli : Bool
  env : Bool
deriving Repr, DecidableEq

/-- Resolution record returned by `resolve_signature_drift_override`. -/
structure OverrideResolution where
  enabled : Bool
  source : String
  cli : Bool
  env : Bool
deriving Repr, DecidableEq

/-- Embedding of `resolve_signature_drift_override` (validate_full.py lines
364-379). -/
def resolve_signature_drift_override (o : DriftOverride) : OverrideResolution :=
  { enabled := o.cli || o.env
    source := if o.cli then "cli" else if o.env then "env" else "none"
    cli := o.cli
    env := o.env }

/-- One drift entry produced by the golden-signature comparison loop
(out-of-band metric, missing metric, or invalid bounds). -/
structure DriftEntry where
  preset : String
  metric : String
  status : String
deriving Repr, DecidableEq

/-- The override-relevant slice of the golden-signature gate report. -/
structure SignatureGateReport where
  gate_pass : Bool
  raw_pass : Bool
  allow_drift_override : Bool
  override_source : String
  override_used : Bool
  drifts : List DriftEntry
  missing_presets : List String
  blocked_without_override : Bool
deriving Repr, DecidableEq

/-- Embedding of the verdict aggregation of `golden_signature_validation`
(validate_full.py lines 1594-1631), as a function of the detected drift
entries, the missing presets, and the resolved override:
`raw_pass = not missing_presets and not drifts`,
`pass = raw_pass or allow_drift`,
`override_used = allow_drift and not raw_pass`. -/
def golden_signature_outcome (drifts : List DriftEntry) (missing_presets : List String)
    (override : DriftOverride) : SignatureGateReport :=
  let resolution := resolve_signature_drift_override override
  let allow_drift := resolution.enabled
  let raw_pass := missing_presets.isEmpty && drifts.isEmpty
  { gate_pass := raw_pass || allow_drift
    raw_pass := raw_pass
    allow_drift_override := allow_drift
    override_source := resolution.source
    override_used := allow_drift && !raw_pass
    drifts := drifts
    missing_presets := missing_presets
    blocked_without_override := !raw_pass && !allow_drift }

/-- The three required-gate lookups of a sweep scenario: Python
`gates.get(name)` yields `None` when the report carried no such gate. -/
structure ScenarioGates where
  slot_insertion_corridor : Option Bool
  frame_interference : Option Bool
  frame_floor_clearance : Option Bool
deriving Repr, DecidableEq

/-- Python truthiness of an optional boolean (`None` is falsy). -/
def truthy : Option Bool → Bool
  | none => false
  | some b => b

/-- The gate-relevant slice of one reference-fit report consumed by the
sweep (its overall `pass` and its `gates` dict entries). -/
structure FitReportSlice where
  report_pass : Bool
  gates : ScenarioGates
deriving Repr, DecidableEq

/-- One recorded sweep scenario. -/
structure ScenarioSummary where
  name : String
  report_present : Bool
  report_pass : Bool
  gates : ScenarioGates
  required_gate_pass : Bool
deriving Repr, DecidableEq

/-- Embedding of `reference_fit_scenario_summary` (validate_full.py lines
497-527): a missing or unreadable report contributes empty gates and
`report_pass = false`; `required_gate_pass` is the truthy conjunction of the
three required gates.  A scenario skipped before any report exists (missing
cached inputs or failed hull export, validate_full.py lines 795-846) carries
the same field values as a summary of an absent report. -/
def reference_fit_scenario_summary (name : String) (report : Option FitReportSlice) :
    ScenarioSummary :=
  let gates := match report with
    | some r => r.gates
    | none => { slot_insertion_corridor := none
                frame_interference := none
                frame_floor_clearance := none }
  { name := name
    report_present := report.isSome
    report_pass := match report with
      | some r => r.report_pass
      | none => false
    gates := gates
    required_gate_pass := truthy gates.slot_insertion_corridor &&
      truthy gates.frame_interference && truthy gates.frame_floor_clearance }

/-- Embedding of the sweep verdict (validate_full.py line 871):
`overall_pass = bool(scenarios) and all(required_gate_pass) and not errors`. -/
def robustness_sweep_pass (scenarios : List ScenarioSummary) (errors : List String) : Bool :=
  !scenarios.isEmpty && scenarios.all (fun s => s.required_gate_pass) && errors.isEmpty

/-- Status values of `sample_local_thickness_probes`. -/
inductive ProbeStatus where
  | ok
  | insufficient_valid_probes
  | probe_failed
  | unavailable
  | no_faces
deriving Repr, DecidableEq

/-- The slice of the `sample_local_thickness_probes` result read by the
manufacturability gates: its status and its robust percentile estimate
(`None` models the failure dictionaries that carry no `percentile_mm`). -/
structure ThicknessProbeSummary where
  status : ProbeStatus
  percentile_mm : Option ℚ
deriving Repr, DecidableEq

/-- Declared preset parameters consumed by `manufacturability_validation`
(validate_full.py lines 1316-1323), after `parse_preset_parameters` with the
source fallbacks applied. -/
structure PresetParams where
  wall_mm : ℚ
  wall_end_taper_ratio : ℚ
  floor_mm : ℚ
  slot_outer_skin_min_mm : ℚ
  slot_skin_mm : ℚ
  feet_on : Bool
  foot_recess_depth_mm : ℚ
  foot_recess_skin_mm : ℚ
deriving Repr, DecidableEq

/-- Mesh-derived quantities of `manufacturability_validation`, taken at the
Mesh Geometry Provider boundary (face normals, face areas, vertices):
the thickness probe summary, the downward-facing and risky overhang areas
(validate_full.py lines 1348-1354), and the contact footprint area and
spans (lines 1357-1370). -/
structure HullProbeData where
  local_thickness : ThicknessProbeSummary
  downward_area_mm2 : ℚ
  risky_overhang_area_mm2 : ℚ
  contact_area_mm2 : ℚ
  contact_span_x_mm : ℚ
  contact_span_y_mm : ℚ
deriving Repr, DecidableEq

/-- Thresholds of `manufacturability_validation` (from the CLI arguments). -/
structure ManufacturabilityThresholds where
  min_wall_thickness_mm : ℚ
  min_recess_skin_mm : ℚ
  max_risky_overhang_ratio : ℚ
  min_contact_area_mm2 : ℚ
  min_contact_span_x_mm : ℚ
  min_contact_span_y_mm : ℚ
deriving Repr, DecidableEq

/-- The five gate booleans of `manufacturability_validation`. -/
structure ManufacturabilityGates where
  minimum_wall_thickness : Bool
  sampled_local_wall_thickness : Bool
  recess_skin_thickness : Bool
  overhang_risk : Bool
  stable_contact_footprint : Bool
deriving Repr, DecidableEq

/-- Result slice of `manufacturability_validation`: the gate dict and the
overall `pass = all(gates.values())`. -/
structure ManufacturabilityResult where
  gates : ManufacturabilityGates
  overall_pass : Bool
deriving Repr, DecidableEq

/-- Embedding of the gate computation of `manufacturability_validation`
(validate_full.py lines 1316-1422): derives the declared wall candidates and
the estimated recess skin from the preset parameters, the risky overhang
ratio from the provider areas, and folds the five gates into the overall
verdict. -/
def manufacturability_validation (params : PresetParams) (probe : HullProbeData)
    (args : ManufacturabilityThresholds) : ManufacturabilityResult :=
  let estimated_end_wall_mm := params.wall_mm * params.wall_end_taper_ratio
  let estimated_recess_skin_mm :=
    if params.feet_on then params.floor_mm - params.foot_recess_depth_mm else params.floor_mm
  let min_wall_thickness_mm :=
    min estimated_end_wall_mm (min params.slot_outer_skin_min_mm params.slot_skin_mm)
  let risky_ratio :=
    if 1 / 1000000000 < probe.downward_area_mm2
    then probe.risky_overhang_area_mm2 / probe.downward_area_mm2
    else 0
  let gates : ManufacturabilityGates :=
    { minimum_wall_thickness := decide (args.min_wall_thickness_mm ≤ min_wall_thickness_mm)
      sampled_local_wall_thickness :=
        decide (probe.local_thickness.status = ProbeStatus.ok) &&
          (match probe.local_thickness.percentile_mm with
           | none => false
           | some p => decide (args.min_wall_thickness_mm ≤ p))
      recess_skin_thickness := decide (args.min_recess_skin_mm ≤ estimated_recess_skin_mm ∧
        params.foot_recess_skin_mm ≤ estimated_recess_skin_mm)
      overhang_risk := decide (risky_ratio ≤ args.max_risky_overhang_ratio)
      stable_contact_footprint := decide (args.min_contact_area_mm2 ≤ probe.contact_area_mm2 ∧
        args.min_contact_span_x_mm ≤ probe.contact_span_x_mm ∧
        args.min_contact_span_y_mm ≤ probe.contact_span_y_mm) }
  { gates := gates
    overall_pass := gates.minimum_wall_thickness && gates.sampled_local_wall_thickness &&
      gates.recess_skin_thickness && gates.overhang_risk && gates.stable_contact_footprint }

/-- Embedding of `sampled_angles` (validate_full.py lines 905-914): the
kinematic sweep angle grid.  A non-positive step short-circuits to the raw
endpoints; otherwise the range is normalised, a closed grid of
`floor((max-min)/step) + 1` points is laid from the minimum, the maximum is
appended when the last grid point falls more than `1e-9` short of it, and
every returned value is rounded to six decimals. -/
def sampled_angles (min_deg max_deg step_deg : ℚ) : List ℚ :=
  if step_deg ≤ 0 then
    (if min_deg ≠ max_deg then [min_deg, max_deg] else [min_deg])
  else
    let lo := if max_deg < min_deg then max_deg else min_deg
    let hi := if max_deg < min_deg then min_deg else max_deg
    let count := (⌊(hi - lo) / step_deg⌋).toNat + 1
    let values := (List.range count).map (fun i : ℕ => lo + step_deg * (i : ℚ))
    let values :=
      if values.isEmpty || decide (values.getLast?.getD lo < hi - 1 / 1000000000)
      then values ++ [hi] else values
    values.map round6

/-- Per-angle result record of `dynamic_kinematic_validation`. -/
structure AngleResult where
  angle_deg : ℚ
  max_penetration_mm : ℚ
  min_gap_mm : ℚ
  angle_pass : Bool
deriving Repr, DecidableEq

/-- Embedding of the per-angle measurement of `dynamic_kinematic_validation`
(validate_full.py lines 979-995), as a function of the provider signed
distances of the posed frame sample points (the pose itself is a rigid
rotation performed on the provider side of the boundary):
`max_penetration = max(0, np.max(signed))`, `min_gap` as in
`analyze_frame_fit`, and the angle passes iff the penetration stays within
tolerance and the gap meets the minimum. -/
def kinematic_angle_measurement (angle_deg : ℚ) (signed : List ℚ)
    (penetration_tol min_gap_tol : ℚ) : AngleResult :=
  let max_penetration := max 0 (npMax signed)
  let min_gap := minGapOf signed
  { angle_deg := angle_deg
    max_penetration_mm := max_penetration
    min_gap_mm := min_gap
    angle_pass := decide (max_penetration ≤ penetration_tol ∧ min_gap_tol ≤ min_gap) }

/-! Helper lemmas for evaluating and reasoning about the embeddings. -/

lemma pyRound_intCast (n : ℤ) : pyRound ((n : ℚ)) = n := by
  unfold pyRound
  rw [Int.floor_intCast]
  rw [if_neg (by norm_num)]
  exact round_intCast n

lemma round6_int (q : ℚ) (n : ℤ) (h : q = (n : ℚ)) : round6 q = q := by
  unfold round6
  rw [h, show (n : ℚ) * 1000000 = ((n * 1000000 : ℤ) : ℚ) by push_cast; ring, pyRound_intCast]
  push_cast
  field_simp

lemma sampled_angles_eval_append (mn mx st : ℚ) (h1 : ¬ st ≤ 0) (h2 : ¬ mx < mn)
    (count : ℕ) (hc : (⌊(mx - mn) / st⌋).toNat + 1 = count)
    (vals : List ℚ) (hv : (List.range count).map (fun i : ℕ => mn + st * (i : ℚ)) = vals)
    (hap : (vals.isEmpty || decide (vals.getLast?.getD mn < mx - 1 / 1000000000)) = true)
    (res : List ℚ) (hres : (vals ++ [mx]).map round6 = res) :
    sampled_angles mn mx st = res := by
  unfold sampled_angles
  rw [if_neg h1]
  simp only [if_neg h2]
  rw [hc, hv, if_pos hap, hres]

lemma sampled_angles_eval_exact (mn mx st : ℚ) (h1 : ¬ st ≤ 0) (h2 : ¬ mx < mn)
    (count : ℕ) (hc : (⌊(mx - mn) / st⌋).toNat + 1 = count)
    (vals : List ℚ) (hv : (List.range count).map (fun i : ℕ => mn + st * (i : ℚ)) = vals)
    (hap : (vals.isEmpty || decide (vals.getLast?.getD mn < mx - 1 / 1000000000)) = false)
    (res : List ℚ) (hres : vals.map round6 = res) :
    sampled_angles mn mx st = res := by
  unfold sampled_angles
  rw [if_neg h1]
  simp only [if_neg h2]
  rw [hc, hv, if_neg (by rw [hap]; exact Bool.false_ne_true), hres]

lemma le_foldl_min_iff (c : ℚ) : ∀ (t : List ℚ) (q : ℚ),
    (c ≤ t.foldl min q ↔ c ≤ q ∧ ∀ a ∈ t, c ≤ a) := by
  intro t
  induction t with
  | nil => simp
  | cons x xs ih =>
    intro q
    rw [List.foldl_cons, ih, le_min_iff]
    constructor
    · rintro ⟨⟨h1, h2⟩, h3⟩
      refine ⟨h1, fun a ha => ?_⟩
      rcases List.mem_cons.mp ha with h | h
      · exact h ▸ h2
      · exact h3 a h
    · rintro ⟨h1, h2⟩
      exact ⟨⟨h1, h2 x (List.mem_cons_self x xs)⟩, fun a ha => h2 a (List.mem_cons_of_mem x ha)⟩

lemma le_npMin_iff (c : ℚ) (l : List ℚ) (h : l ≠ []) :
    c ≤ npMin l ↔ ∀ a ∈ l, c ≤ a := by
  cases l with
  | nil => exact absurd rfl h
  | cons q t =>
    rw [npMin, le_foldl_min_iff]
    constructor
    · rintro ⟨h1, h2⟩ a ha
      rcases List.mem_cons.mp ha with hh | hh
      · exact hh ▸ h1
      · exact h2 a hh
    · intro hall
      exact ⟨hall q (List.mem_cons_self q t), fun a ha => hall a (List.mem_cons_of_mem q ha)⟩

lemma linspace_length (a b : ℚ) (n : ℕ) : (linspace a b n).length = n := by
  unfold linspace
  split
  · split
    · simp
      omega
    · simp
      omega
  · rw [List.length_map, List.length_range]

/-! Claim theorems. -/

/-- C1: for every hull mesh, frame mesh, slot-plug mesh, resolved reference
constants, thresholds, and constants-locked flag, the reference-fit analysis
reports overall pass = true if and only if all seven gates hold: hull mesh
watertight, reference constants locked, all four slot axis checks pass, slot
depth within tolerance of the target, all four corridor checks pass, frame
interference passes for both mirrored placements, and floor clearance passes
for both mirrored placements. -/
theorem reference_fit_overall_pass_iff (h f p : Mesh) (c : ReferenceConstants)
    (t : VerificationThresholds) (lk : Bool) :
    ((analyze_reference_fit h f p c t lk).overall_pass = true ↔
      (h.is_watertight = true ∧
       lk = true ∧
       (∀ s ∈ (analyze_reference_fit h f p c t lk).slot_checks, s.axis_pass = true) ∧
       |(analyze_reference_fit h f p c t lk).slot_depth_mm - t.slot_depth_target_mm| ≤
         t.slot_depth_tolerance_mm ∧
       (∀ s ∈ (analyze_reference_fit h f p c t lk).slot_checks, s.corridor_pass = true) ∧
       (∀ fr ∈ (analyze_reference_fit h f p c t lk).frame_checks, fr.interference_pass = true) ∧
       (∀ fr ∈ (analyze_reference_fit h f p c t lk).frame_checks, fr.floor_clearance_pass = true))) ∧
    (analyze_reference_fit h f p c t lk).slot_checks.length = 4 ∧
    (analyze_reference_fit h f p c t lk).frame_checks.length = 2 := by
  refine ⟨?_, ?_, ?_⟩
  · simp only [analyze_reference_fit, Bool.and_eq_true, List.all_eq_true, decide_eq_true_iff]
    tauto
  · simp [analyze_reference_fit]
  · simp [analyze_reference_fit, analyze_frame_fit]

/-- C2: the insertion-corridor check samples the configured number of
collinear points vertically from seat height to entry height at the observed
seat (x, y); the corridor minimum free radius is the minimum over these
samples of the negated signed distance to the hull; corridor clearance
equals that minimum free radius minus the ball radius; and the corridor
check passes if and only if the clearance is at least the minimum corridor
clearance threshold. -/
theorem slot_corridor_check_spec (h : Mesh) (ex ey sz ez br : ℚ)
    (t : VerificationThresholds) (hn : 1 ≤ t.corridor_samples) :
    ((linspace sz ez t.corridor_samples).map (fun z =>
        Vec3.mk (measure_slot_geometry h ex ey sz ez br t).observed_x_mm
          (measure_slot_geometry h ex ey sz ez br t).observed_y_mm z)).length =
      t.corridor_samples ∧
    (measure_slot_geometry h ex ey sz ez br t).corridor_min_free_radius_mm =
      npMin (((linspace sz ez t.corridor_samples).map (fun z =>
        Vec3.mk (measure_slot_geometry h ex ey sz ez br t).observed_x_mm
          (measure_slot_geometry h ex ey sz ez br t).observed_y_mm z)).map
        (fun pt => - h.signedDistance pt)) ∧
    (measure_slot_geometry h ex ey sz ez br t).corridor_min_radial_clearance_mm =
      (measure_slot_geometry h ex ey sz ez br t).corridor_min_free_radius_mm - br ∧
    ((measure_slot_geometry h ex ey sz ez br t).corridor_pass = true ↔
      ∀ pt ∈ (linspace sz ez t.corridor_samples).map (fun z =>
          Vec3.mk (measure_slot_geometry h ex ey sz ez br t).observed_x_mm
            (measure_slot_geometry h ex ey sz ez br t).observed_y_mm z),
        t.corridor_radial_clearance_min_mm ≤ - h.signedDistance pt - br) := by
  have hlen : ((linspace sz ez t.corridor_samples).map (fun z =>
      Vec3.mk (measure_slot_geometry h ex ey sz ez br t).observed_x_mm
        (measure_slot_geometry h ex ey sz ez br t).observed_y_mm z)).length =
      t.corridor_samples := by
    rw [List.length_map, linspace_length]
  have hne : (linspace sz ez t.corridor_samples).map (fun z =>
      Vec3.mk (measure_slot_geometry h ex ey sz ez br t).observed_x_mm
        (measure_slot_geometry h ex ey sz ez br t).observed_y_mm z) ≠ [] := by
    intro hcon
    rw [hcon] at hlen
    simp at hlen
    omega
  have hmap : ((linspace sz ez t.corridor_samples).map (fun z =>
      Vec3.mk (measure_slot_geometry h ex ey sz ez br t).observed_x_mm
        (measure_slot_geometry h ex ey sz ez br t).observed_y_mm z)).map
        (fun pt => - h.signedDistance pt) ≠ [] := by
    intro hcon
    exact hne (List.map_eq_nil_iff.mp hcon)
  have heq : (measure_slot_geometry h ex ey sz ez br t).corridor_min_free_radius_mm =
      npMin (((linspace sz ez t.corridor_samples).map (fun z =>
        Vec3.mk (measure_slot_geometry h ex ey sz ez br t).observed_x_mm
          (measure_slot_geometry h ex ey sz ez br t).observed_y_mm z)).map
        (fun pt => - h.signedDistance pt)) := by
    rw [List.map_map]
    rfl
  have hclear : (measure_slot_geometry h ex ey sz ez br t).corridor_min_radial_clearance_mm =
      (measure_slot_geometry h ex ey sz ez br t).corridor_min_free_radius_mm - br := rfl
  have hpass : (measure_slot_geometry h ex ey sz ez br t).corridor_pass =
      decide (t.corridor_radial_clearance_min_mm ≤
        (measure_slot_geometry h ex ey sz ez br t).corridor_min_radial_clearance_mm) := rfl
  refine ⟨hlen, heq, hclear, ?_⟩
  rw [hpass, decide_eq_true_iff, hclear, heq]
  have hshift : t.corridor_radial_clearance_min_mm ≤
      npMin (((linspace sz ez t.corridor_samples).map (fun z =>
        Vec3.mk (measure_slot_geometry h ex ey sz ez br t).observed_x_mm
          (measure_slot_geometry h ex ey sz ez br t).observed_y_mm z)).map
        (fun pt => - h.signedDistance pt)) - br ↔
      t.corridor_radial_clearance_min_mm + br ≤
      npMin (((linspace sz ez t.corridor_samples).map (fun z =>
        Vec3.mk (measure_slot_geometry h ex ey sz ez br t).observed_x_mm
          (measure_slot_geometry h ex ey sz ez br t).observed_y_mm z)).map
        (fun pt => - h.signedDistance pt)) := by
    constructor <;> intro hx <;> linarith
  rw [hshift, le_npMin_iff _ _ hmap]
  constructor
  · intro hall pt hpt
    have := hall (- h.signedDistance pt) (List.mem_map_of_mem _ hpt)
    linarith
  · intro hall a ha
    rcases List.mem_map.mp ha with ⟨pt, hpt, rfl⟩
    have := hall pt hpt
    linarith

/-- C3: for each of the two mirrored frame placements, the interference
check passes if and only if no sampled frame point (all frame vertices plus
all face centroids, translated by the placement offset) has signed distance
against the hull exceeding the penetration tolerance, and the minimum
magnitude of signed distance among non-penetrating samples (signed distance
at most zero, as computed by `minGapOf`) is at least the minimum gap
threshold; both conditions are required for the placement to pass. -/
theorem frame_interference_check_spec (h f : Mesh) (spacing alignZ : ℚ)
    (t : VerificationThresholds) :
    analyze_frame_fit h f spacing alignZ t =
      [analyze_frame_placement h f spacing alignZ t (-1),
       analyze_frame_placement h f spacing alignZ t 1] ∧
    ∀ xs : ℚ,
      (analyze_frame_placement h f spacing alignZ t xs).min_gap_mm =
        minGapOf ((placementSamples f spacing alignZ xs).map h.signedDistance) ∧
      ((analyze_frame_placement h f spacing alignZ t xs).interference_pass = true ↔
        ((∀ pt ∈ placementSamples f spacing alignZ xs,
            h.signedDistance pt ≤ t.frame_penetration_max_mm) ∧
         t.frame_min_gap_mm ≤
           minGapOf ((placementSamples f spacing alignZ xs).map h.signedDistance))) := by
  refine ⟨rfl, fun xs => ⟨rfl, ?_⟩⟩
  show decide _ = true ↔ _
  rw [decide_eq_true_iff]
  constructor
  · rintro ⟨h1, h2⟩
    refine ⟨?_, h2⟩
    intro pt hpt
    have h3 := List.countP_eq_zero.mp h1 (h.signedDistance pt) (List.mem_map_of_mem _ hpt)
    simp at h3
    linarith
  · rintro ⟨h1, h2⟩
    refine ⟨List.countP_eq_zero.mpr ?_, h2⟩
    intro v hv
    rcases List.mem_map.mp hv with ⟨pt, hpt, rfl⟩
    simp
    exact h1 pt hpt

/-- C9: for any frame placement evaluated against the hull, at rest or at a
sampled swing angle, if every sampled frame point has positive signed
distance (all samples penetrate the hull), the reported `min_gap_mm` is the
literal `0.0` rather than the minimum over an empty sample set; the
computation is total, and under any strictly positive minimum-gap threshold
such a placement necessarily fails its interference (or angle) check. -/
theorem all_penetrating_fails_closed (h f : Mesh) (spacing alignZ : ℚ)
    (t : VerificationThresholds) (xs angle penTol gapTol : ℚ) (sds : List ℚ)
    (hframe : ∀ pt ∈ placementSamples f spacing alignZ xs, 0 < h.signedDistance pt)
    (hkin : ∀ v ∈ sds, 0 < v)
    (hgap_t : 0 < t.frame_min_gap_mm) (hgap_k : 0 < gapTol) :
    (analyze_frame_placement h f spacing alignZ t xs).min_gap_mm = 0 ∧
    (analyze_frame_placement h f spacing alignZ t xs).interference_pass = false ∧
    (kinematic_angle_measurement angle sds penTol gapTol).min_gap_mm = 0 ∧
    (kinematic_angle_measurement angle sds penTol gapTol).angle_pass = false := by
  have hzero : ∀ l : List ℚ, (∀ v ∈ l, 0 < v) → minGapOf l = 0 := by
    intro l hl
    unfold minGapOf
    have hfil : l.filter (fun v => decide (v ≤ 0)) = [] := by
      rw [List.filter_eq_nil_iff]
      intro a ha
      simp
      exact hl a ha
    rw [hfil]
    rfl
  have hframe_sd : ∀ v ∈ (placementSamples f spacing alignZ xs).map h.signedDistance, 0 < v := by
    intro v hv
    rcases List.mem_map.mp hv with ⟨pt, hpt, rfl⟩
    exact hframe pt hpt
  have hm1 : (analyze_frame_placement h f spacing alignZ t xs).min_gap_mm = 0 :=
    hzero _ hframe_sd
  have hm2 : (kinematic_angle_measurement angle sds penTol gapTol).min_gap_mm = 0 :=
    hzero _ hkin
  refine ⟨hm1, ?_, hm2, ?_⟩
  · show decide _ = false
    rw [decide_eq_false_iff_not]
    rintro ⟨-, hB⟩
    have : minGapOf ((placementSamples f spacing alignZ xs).map h.signedDistance) = 0 :=
      hzero _ hframe_sd
    rw [this] at hB
    linarith
  · show decide _ = false
    rw [decide_eq_false_iff_not]
    rintro ⟨-, hB⟩
    have : minGapOf sds = 0 := hzero _ hkin
    rw [this] at hB
    linarith

/-- C10: in the floor clearance check, a frame bottom contact point whose
downward ray produces no hull intersection strictly below it contributes no
clearance sample; if no contact point of a placement yields a sample (or
the placement has no bottom points), `floor_clearance_min_mm` is reported as
`none` and that placement's `floor_clearance_pass` is false; absent floor
geometry fails the gate closed, never producing a pass. -/
theorem floor_clearance_fails_closed (h f : Mesh) (spacing alignZ : ℚ)
    (t : VerificationThresholds) (xs : ℚ) :
    (∀ pt : Vec3, (h.rayDownZHits (Vec3.mk pt.x pt.y (pt.z - 1 / 10000))).filter
        (fun z => z < pt.z - 1 / 1000000) = [] → pointFloorClearance h pt = none) ∧
    (∀ pts : List Vec3, (∀ pt ∈ pts, pointFloorClearance h pt = none) →
      measure_floor_clearances h pts = []) ∧
    ((analyze_frame_placement h f spacing alignZ t xs).floor_clearance_samples_mm = [] →
      (analyze_frame_placement h f spacing alignZ t xs).floor_clearance_min_mm = none) ∧
    ((analyze_frame_placement h f spacing alignZ t xs).floor_clearance_min_mm = none →
      (analyze_frame_placement h f spacing alignZ t xs).floor_clearance_pass = false) := by
  refine ⟨?_, ?_, ?_, ?_⟩
  · intro pt hfil
    unfold pointFloorClearance
    simp only []
    rw [hfil]
    rfl
  · intro pts hall
    unfold measure_floor_clearances
    rw [List.filterMap_eq_nil_iff]
    exact hall
  · intro hsamp
    have hrfl : (analyze_frame_placement h f spacing alignZ t xs).floor_clearance_min_mm =
        (if (analyze_frame_placement h f spacing alignZ t xs).floor_clearance_samples_mm.isEmpty
         then none
         else some (npMin
           (analyze_frame_placement h f spacing alignZ t xs).floor_clearance_samples_mm)) := rfl
    rw [hrfl, hsamp]
    rfl
  · intro hnone
    have hrfl : (analyze_frame_placement h f spacing alignZ t xs).floor_clearance_pass =
        (match (analyze_frame_placement h f spacing alignZ t xs).floor_clearance_min_mm with
         | none => false
         | some v => decide (t.floor_clearance_min_mm ≤ v)) := rfl
    rw [hrfl, hnone]

/-! Concrete fixtures for the witness theorems. -/

/-- A provider mesh whose signed-distance query reports every point in free
space at distance 1, with no downward-ray intersections. -/
def mesh_outside : Mesh :=
  { vertices := [Vec3.mk 0 0 0]
    triangles_center := []
    signedDistance := fun _ => -1
    rayDownZHits := fun _ => []
    is_watertight := true }

/-- A provider mesh whose signed-distance query reports every point inside
the solid at depth 1, with no downward-ray intersections. -/
def mesh_inside : Mesh :=
  { vertices := [Vec3.mk 0 0 0]
    triangles_center := []
    signedDistance := fun _ => 1
    rayDownZHits := fun _ => []
    is_watertight := true }

/-- A one-vertex frame mesh. -/
def frame_point : Mesh :=
  { vertices := [Vec3.mk 0 0 0]
    triangles_center := []
    signedDistance := fun _ => 0
    rayDownZHits := fun _ => []
    is_watertight := true }

/-- The default threshold values of `VerificationThresholds` in
`verify_reference_fit.py`, except `corridor_samples = 2` (the CLI minimum
accepted by `build_thresholds`). -/
def t0 : VerificationThresholds :=
  { axis_tolerance_mm := 1 / 4
    slot_depth_target_mm := 7
    slot_depth_tolerance_mm := 1 / 20
    corridor_radial_clearance_min_mm := 2 / 25
    frame_penetration_max_mm := 1 / 100
    frame_min_gap_mm := 2 / 25
    floor_clearance_min_mm := 2
    axis_scan_radius_mm := 4 / 5
    axis_scan_step_mm := 1 / 10
    corridor_samples := 2
    frame_bottom_z_tolerance_mm := 1 / 20 }

/-- Witness for C2 at a concrete mesh and thresholds. -/
theorem slot_corridor_check_spec_witness :
    (1 ≤ t0.corridor_samples) ∧
    (((linspace 0 1 t0.corridor_samples).map (fun z =>
        Vec3.mk (measure_slot_geometry mesh_outside 0 0 0 1 1 t0).observed_x_mm
          (measure_slot_geometry mesh_outside 0 0 0 1 1 t0).observed_y_mm z)).length =
      t0.corridor_samples ∧
    (measure_slot_geometry mesh_outside 0 0 0 1 1 t0).corridor_min_free_radius_mm =
      npMin (((linspace 0 1 t0.corridor_samples).map (fun z =>
        Vec3.mk (measure_slot_geometry mesh_outside 0 0 0 1 1 t0).observed_x_mm
          (measure_slot_geometry mesh_outside 0 0 0 1 1 t0).observed_y_mm z)).map
        (fun pt => - mesh_outside.signedDistance pt)) ∧
    (measure_slot_geometry mesh_outside 0 0 0 1 1 t0).corridor_min_radial_clearance_mm =
      (measure_slot_geometry mesh_outside 0 0 0 1 1 t0).corridor_min_free_radius_mm - 1 ∧
    ((measure_slot_geometry mesh_outside 0 0 0 1 1 t0).corridor_pass = true ↔
      ∀ pt ∈ (linspace 0 1 t0.corridor_samples).map (fun z =>
          Vec3.mk (measure_slot_geometry mesh_outside 0 0 0 1 1 t0).observed_x_mm
            (measure_slot_geometry mesh_outside 0 0 0 1 1 t0).observed_y_mm z),
        t0.corridor_radial_clearance_min_mm ≤ - mesh_outside.signedDistance pt - 1)) :=
  ⟨by decide, slot_corridor_check_spec mesh_outside 0 0 0 1 1 t0 (by decide)⟩

/-- Witness for C9 at a concrete all-penetrating placement. -/
theorem all_penetrating_fails_closed_witness :
    ((∀ pt ∈ placementSamples frame_point 16 (-45) 1, 0 < mesh_inside.signedDistance pt) ∧
     (∀ v ∈ [(1 : ℚ)], 0 < v) ∧
     0 < t0.frame_min_gap_mm ∧ (0 : ℚ) < 2 / 25) ∧
    ((analyze_frame_placement mesh_inside frame_point 16 (-45) t0 1).min_gap_mm = 0 ∧
     (analyze_frame_placement mesh_inside frame_point 16 (-45) t0 1).interference_pass = false ∧
     (kinematic_angle_measurement 0 [(1 : ℚ)] (1 / 100) (2 / 25)).min_gap_mm = 0 ∧
     (kinematic_angle_measurement 0 [(1 : ℚ)] (1 / 100) (2 / 25)).angle_pass = false) :=
  ⟨⟨fun pt _ => by norm_num [mesh_inside], by intro v hv; simp at hv; rw [hv]; norm_num,
    by norm_num [t0], by norm_num⟩,
   all_penetrating_fails_closed mesh_inside frame_point 16 (-45) t0 1 0 (1 / 100) (2 / 25)
     [(1 : ℚ)] (fun pt _ => by norm_num [mesh_inside])
     (by intro v hv; simp at hv; rw [hv]; norm_num) (by norm_num [t0]) (by norm_num)⟩

/-- Witness for C10 at a concrete mesh with no downward-ray intersections. -/
theorem floor_clearance_fails_closed_witness :
    pointFloorClearance mesh_inside (Vec3.mk 0 0 0) = none ∧
    (analyze_frame_placement mesh_inside frame_point 16 (-45) t0 1).floor_clearance_min_mm = none ∧
    (analyze_frame_placement mesh_inside frame_point 16 (-45) t0 1).floor_clearance_pass = false := by
  have main := floor_clearance_fails_closed mesh_inside frame_point 16 (-45) t0 1
  have hall : ∀ pt : Vec3, pointFloorClearance mesh_inside pt = none := by
    intro pt
    exact main.1 pt (by simp [mesh_inside])
  have hsamp : (analyze_frame_placement mesh_inside frame_point 16 (-45) t0 1).floor_clearance_samples_mm = [] := by
    show measure_floor_clearances mesh_inside _ = []
    exact main.2.1 _ (fun pt _ => hall pt)
  exact ⟨hall (Vec3.mk 0 0 0), main.2.2.1 hsamp, main.2.2.2 (main.2.2.1 hsamp)⟩

/-- Helper: Python truthiness of an optional gate value is exactly
`some true`. -/
lemma truthy_eq_true_iff (ob : Option Bool) : truthy ob = true ↔ ob = some true := by
  rcases ob with _ | b
  · simp [truthy]
  · rcases b <;> simp [truthy]

/-- C4: for the golden signature gate, whenever at least one drift or
missing preset is detected (raw_pass = false), enabling the override (CLI
flag or environment variable) yields overall pass = true with
raw_pass = false and override_used = true, while on the identical
observations with the override disabled the gate yields overall
pass = false; raw_pass, the override state, and the override source are
always reported separately. -/
theorem signature_override_policy (drifts : List DriftEntry) (missing : List String)
    (o : DriftOverride) (hdetect : drifts ≠ [] ∨ missing ≠ [])
    (henabled : o.cli = true ∨ o.env = true) :
    (golden_signature_outcome drifts missing o).gate_pass = true ∧
    (golden_signature_outcome drifts missing o).raw_pass = false ∧
    (golden_signature_outcome drifts missing o).override_used = true ∧
    (golden_signature_outcome drifts missing o).allow_drift_override = true ∧
    (golden_signature_outcome drifts missing o).override_source =
      (if o.cli then "cli" else "env") ∧
    (golden_signature_outcome drifts missing (DriftOverride.mk false false)).gate_pass = false ∧
    (golden_signature_outcome drifts missing (DriftOverride.mk false false)).raw_pass = false ∧
    (golden_signature_outcome drifts missing (DriftOverride.mk false false)).override_used = false ∧
    (golden_signature_outcome drifts missing (DriftOverride.mk false false)).allow_drift_override
      = false ∧
    (golden_signature_outcome drifts missing (DriftOverride.mk false false)).override_source
      = "none" := by
  have hraw : (missing.isEmpty && drifts.isEmpty) = false := by
    rcases hdetect with hd | hm
    · rcases drifts with _ | ⟨d, ds⟩
      · exact absurd rfl hd
      · simp
    · rcases missing with _ | ⟨m, ms⟩
      · exact absurd rfl hm
      · simp
  have hen : (o.cli || o.env) = true := by
    rcases henabled with hc | he
    · rw [hc]
      rfl
    · rw [he]
      simp
  refine ⟨?_, ?_, ?_, ?_, ?_, ?_, ?_, ?_, ?_, ?_⟩
  · simp [golden_signature_outcome, resolve_signature_drift_override, hraw, hen]
  · simp [golden_signature_outcome, hraw]
  · simp [golden_signature_outcome, resolve_signature_drift_override, hraw, hen]
  · simp [golden_signature_outcome, resolve_signature_drift_override, hen]
  · simp only [golden_signature_outcome, resolve_signature_drift_override]
    rcases hc : o.cli with _ | _
    · rcases he : o.env with _ | _
      · rw [hc] at henabled
        rw [he] at henabled
        rcases henabled with hx | hx <;> exact absurd hx Bool.false_ne_true
      · simp
    · simp
  · simp [golden_signature_outcome, resolve_signature_drift_override, hraw]
  · simp [golden_signature_outcome, hraw]
  · simp [golden_signature_outcome, resolve_signature_drift_override]
  · simp [golden_signature_outcome, resolve_signature_drift_override]
  · simp [golden_signature_outcome, resolve_signature_drift_override]

/-- C5: for every resolved constant map containing all canonical reference
constants, the locked boolean is true if and only if, for every canonical
constant, the absolute difference between the observed value and its
canonical value is within 1e-6; and the output delta list contains one
entry per canonical constant recording its expected value, observed value,
and delta. -/
theorem constants_locked_iff (constants : ReferenceConstants) :
    ((evaluate_reference_constant_lock constants).1 = true ↔
      ∀ nv ∈ canonical_reference_constants, |constants nv.1 - nv.2| ≤ 1 / 1000000) ∧
    (evaluate_reference_constant_lock constants).2 =
      canonical_reference_constants.map (fun nv =>
        { name := nv.1
          expected := nv.2
          observed := constants nv.1
          delta_mm := constants nv.1 - nv.2 : ConstantDelta }) ∧
    (evaluate_reference_constant_lock constants).2.length = 9 := by
  have hpair : (evaluate_reference_constant_lock constants).1 =
      (canonical_reference_constants.map (fun nv =>
        ({ name := nv.1
           expected := nv.2
           observed := constants nv.1
           delta_mm := constants nv.1 - nv.2 } : ConstantDelta))).all
        (fun d => !decide (1 / 1000000 < |d.delta_mm|)) := rfl
  refine ⟨?_, rfl, rfl⟩
  rw [hpair, List.all_eq_true]
  constructor
  · intro hall nv hnv
    have hx := hall _ (List.mem_map_of_mem _ hnv)
    simp at hx
    simpa using hx
  · intro hall d hd
    rcases List.mem_map.mp hd with ⟨nv, hnv, rfl⟩
    simp
    simpa using hall nv hnv

/-- C6: the robustness sweep reports overall pass = true if and only if
the recorded scenario list is non-empty, every recorded scenario's
required-gate triple (slot_insertion_corridor, frame_interference,
frame_floor_clearance) is true, and no infrastructure errors were recorded
during the sweep. -/
theorem robustness_sweep_pass_iff (inputs : List (String × Option FitReportSlice))
    (errors : List String) :
    robustness_sweep_pass
        (inputs.map (fun i => reference_fit_scenario_summary i.1 i.2)) errors = true ↔
      (inputs ≠ [] ∧
       (∀ i ∈ inputs, ∃ r : FitReportSlice, i.2 = some r ∧
          r.gates.slot_insertion_corridor = some true ∧
          r.gates.frame_interference = some true ∧
          r.gates.frame_floor_clearance = some true) ∧
       errors = []) := by
  have hreq : ∀ i : String × Option FitReportSlice,
      ((reference_fit_scenario_summary i.1 i.2).required_gate_pass = true ↔
        (∃ r : FitReportSlice, i.2 = some r ∧
          r.gates.slot_insertion_corridor = some true ∧
          r.gates.frame_interference = some true ∧
          r.gates.frame_floor_clearance = some true)) := by
    intro i
    rcases hrep : i.2 with _ | r
    · have hv : (reference_fit_scenario_summary i.1 none).required_gate_pass = false := rfl
      rw [hv]
      simp
    · have hv : (reference_fit_scenario_summary i.1 (some r)).required_gate_pass =
          (truthy r.gates.slot_insertion_corridor && truthy r.gates.frame_interference &&
            truthy r.gates.frame_floor_clearance) := rfl
      rw [hv]
      simp only [Bool.and_eq_true, truthy_eq_true_iff]
      constructor
      · rintro ⟨⟨h1, h2⟩, h3⟩
        exact ⟨r, rfl, h1, h2, h3⟩
      · rintro ⟨r2, hr2, h1, h2, h3⟩
        injection hr2 with hr2
        subst hr2
        exact ⟨⟨h1, h2⟩, h3⟩
  unfold robustness_sweep_pass
  simp only [Bool.and_eq_true, List.all_eq_true, List.mem_map]
  constructor
  · rintro ⟨⟨hne, hall⟩, herr⟩
    refine ⟨?_, ?_, ?_⟩
    · intro hcon
      subst hcon
      simp at hne
    · intro i hi
      exact (hreq i).mp (hall _ ⟨i, hi, rfl⟩)
    · simpa using herr
  · rintro ⟨hne, hall, herr⟩
    refine ⟨⟨?_, ?_⟩, ?_⟩
    · rcases inputs with _ | ⟨i, is⟩
      · exact absurd rfl hne
      · simp
    · rintro s ⟨i, hi, rfl⟩
      exact (hreq i).mpr (hall i hi)
    · subst herr
      rfl

/-- A concrete out-of-band drift entry. -/
def drift0 : DriftEntry :=
  { preset := "gcsc_default", metric := "volume_mm3", status := "out_of_band" }

/-- Witness for C4 at one concrete drift with the CLI override. -/
theorem signature_override_policy_witness :
    (([drift0] : List DriftEntry) ≠ [] ∨ ([] : List String) ≠ []) ∧
    ((DriftOverride.mk true false).cli = true ∨ (DriftOverride.mk true false).env = true) ∧
    ((golden_signature_outcome [drift0] [] (DriftOverride.mk true false)).gate_pass = true ∧
     (golden_signature_outcome [drift0] [] (DriftOverride.mk true false)).raw_pass = false ∧
     (golden_signature_outcome [drift0] [] (DriftOverride.mk true false)).override_used = true ∧
     (golden_signature_outcome [drift0] [] (DriftOverride.mk true false)).allow_drift_override
       = true ∧
     (golden_signature_outcome [drift0] [] (DriftOverride.mk true false)).override_source =
       (if (DriftOverride.mk true false).cli then "cli" else "env") ∧
     (golden_signature_outcome [drift0] [] (DriftOverride.mk false false)).gate_pass = false ∧
     (golden_signature_outcome [drift0] [] (DriftOverride.mk false false)).raw_pass = false ∧
     (golden_signature_outcome [drift0] [] (DriftOverride.mk false false)).override_used = false ∧
     (golden_signature_outcome [drift0] [] (DriftOverride.mk false false)).allow_drift_override
       = false ∧
     (golden_signature_outcome [drift0] [] (DriftOverride.mk false false)).override_source
       = "none") :=
  ⟨Or.inl (by simp), Or.inl rfl,
   signature_override_policy [drift0] [] (DriftOverride.mk true false)
     (Or.inl (by simp)) (Or.inl rfl)⟩

/-- Preset parameters whose declared walls are thick but whose foot recess
leaves only 0.2 mm of skin. -/
def params7 : PresetParams :=
  { wall_mm := 2
    wall_end_taper_ratio := 1
    floor_mm := 1
    slot_outer_skin_min_mm := 2
    slot_skin_mm := 2
    feet_on := true
    foot_recess_depth_mm := 4 / 5
    foot_recess_skin_mm := 1 }

/-- Healthy mesh-derived probe data. -/
def probe7 : HullProbeData :=
  { local_thickness := { status := ProbeStatus.ok, percentile_mm := some 2 }
    downward_area_mm2 := 10
    risky_overhang_area_mm2 := 1
    contact_area_mm2 := 100
    contact_span_x_mm := 10
    contact_span_y_mm := 10 }

/-- Manufacturability thresholds for the counterexample. -/
def args7 : ManufacturabilityThresholds :=
  { min_wall_thickness_mm := 6 / 5
    min_recess_skin_mm := 1
    max_risky_overhang_ratio := 3 / 10
    min_contact_area_mm2 := 50
    min_contact_span_x_mm := 5
    min_contact_span_y_mm := 5 }

/-- C7 counterexample: a concrete input on which all four checks named by
the claim (declared-parameter minimum wall thickness, sampled local
thickness, overhang risk, contact footprint stability) pass, yet the
overall manufacturability verdict is false, because the fifth gate of the
source, `recess_skin_thickness`, fails. -/
theorem manufacturability_four_gate_counterexample :
    (manufacturability_validation params7 probe7 args7).gates.minimum_wall_thickness = true ∧
    (manufacturability_validation params7 probe7 args7).gates.sampled_local_wall_thickness = true ∧
    (manufacturability_validation params7 probe7 args7).gates.overhang_risk = true ∧
    (manufacturability_validation params7 probe7 args7).gates.stable_contact_footprint = true ∧
    (manufacturability_validation params7 probe7 args7).gates.recess_skin_thickness = false ∧
    (manufacturability_validation params7 probe7 args7).overall_pass = false := by
  refine ⟨?_, ?_, ?_, ?_, ?_, ?_⟩ <;>
    norm_num [manufacturability_validation, params7, probe7, args7]

/-- C7 amended: overall manufacturability pass is true if and only if all
five gate booleans of the source hold: declared-parameter minimum wall
thickness, sampled local thickness, recess skin thickness, overhang risk,
and contact footprint stability. -/
theorem manufacturability_pass_iff_five_gates (params : PresetParams)
    (probe : HullProbeData) (args : ManufacturabilityThresholds) :
    (manufacturability_validation params probe args).overall_pass = true ↔
      ((manufacturability_validation params probe args).gates.minimum_wall_thickness = true ∧
       (manufacturability_validation params probe args).gates.sampled_local_wall_thickness = true ∧
       (manufacturability_validation params probe args).gates.recess_skin_thickness = true ∧
       (manufacturability_validation params probe args).gates.overhang_risk = true ∧
       (manufacturability_validation params probe args).gates.stable_contact_footprint = true) := by
  have hrfl : (manufacturability_validation params probe args).overall_pass =
      ((manufacturability_validation params probe args).gates.minimum_wall_thickness &&
       (manufacturability_validation params probe args).gates.sampled_local_wall_thickness &&
       (manufacturability_validation params probe args).gates.recess_skin_thickness &&
       (manufacturability_validation params probe args).gates.overhang_risk &&
       (manufacturability_validation params probe args).gates.stable_contact_footprint) := rfl
  rw [hrfl]
  simp only [Bool.and_eq_true]
  tauto

lemma sampled_angles_0_10_4 : sampled_angles 0 10 4 = [0, 4, 8, 10] := by
  refine sampled_angles_eval_append 0 10 4 (by norm_num) (by norm_num) 3
    (by rw [show ⌊((10 : ℚ) - 0) / 4⌋ = 2 by norm_num]; rfl) [0, 4, 8] ?_
    (by norm_num [List.getLast?]) _ ?_
  · rw [show List.range 3 = [0, 1, 2] from rfl]
    simp only [List.map]
    norm_num
  · simp only [List.map, List.cons_append, List.nil_append]
    rw [round6_int 0 0 (by norm_num), round6_int 4 4 (by norm_num), round6_int 8 8 (by norm_num),
      round6_int 10 10 (by norm_num)]

lemma sampled_angles_0_10_3 : sampled_angles 0 10 3 = [0, 3, 6, 9, 10] := by
  refine sampled_angles_eval_append 0 10 3 (by norm_num) (by norm_num) 4
    (by rw [show ⌊((10 : ℚ) - 0) / 3⌋ = 3 by norm_num]; rfl) [0, 3, 6, 9] ?_
    (by norm_num [List.getLast?]) _ ?_
  · rw [show List.range 4 = [0, 1, 2, 3] from rfl]
    simp only [List.map]
    norm_num
  · simp only [List.map, List.cons_append, List.nil_append]
    rw [round6_int 0 0 (by norm_num), round6_int 3 3 (by norm_num), round6_int 6 6 (by norm_num),
      round6_int 9 9 (by norm_num), round6_int 10 10 (by norm_num)]

lemma sampled_angles_0_10_2 : sampled_angles 0 10 2 = [0, 2, 4, 6, 8, 10] := by
  refine sampled_angles_eval_exact 0 10 2 (by norm_num) (by norm_num) 6
    (by rw [show ⌊((10 : ℚ) - 0) / 2⌋ = 5 by norm_num]; rfl) [0, 2, 4, 6, 8, 10] ?_
    (by norm_num [List.getLast?]) _ ?_
  · rw [show List.range 6 = [0, 1, 2, 3, 4, 5] from rfl]
    simp only [List.map]
    norm_num
  · simp only [List.map]
    rw [round6_int 0 0 (by norm_num), round6_int 2 2 (by norm_num), round6_int 4 4 (by norm_num),
      round6_int 6 6 (by norm_num), round6_int 8 8 (by norm_num), round6_int 10 10 (by norm_num)]

/-- C8 counterexample: with identical ranges (so range B contains range A)
and a smaller step for run B (3 ≤ 4), angle 4 is sampled by run A
(step 4) but not by run B (step 3): decreasing the step removed a
previously sampled angle. -/
theorem kinematic_sampling_monotonic_counterexample :
    ((0 : ℚ) ≤ 0 ∧ (10 : ℚ) ≤ 10 ∧ (0 : ℚ) < 3 ∧ (3 : ℚ) ≤ 4) ∧
    (4 : ℚ) ∈ sampled_angles 0 10 4 ∧ (4 : ℚ) ∉ sampled_angles 0 10 3 := by
  refine ⟨by norm_num, ?_, ?_⟩
  · rw [sampled_angles_0_10_4]
    decide
  · rw [sampled_angles_0_10_3]
    decide

/-- Helper: every sampled angle in the positive-step case comes from a grid
point or from the appended range maximum. -/
lemma sampled_angles_subset_grid (mn mx st : ℚ) (h1 : ¬ st ≤ 0) (h2 : ¬ mx < mn) (a : ℚ)
    (ha : a ∈ sampled_angles mn mx st) :
    ∃ v, (v ∈ (List.range ((⌊(mx - mn) / st⌋).toNat + 1)).map
        (fun i : ℕ => mn + st * (i : ℚ)) ∨ v = mx) ∧ a = round6 v := by
  unfold sampled_angles at ha
  rw [if_neg h1] at ha
  simp only [if_neg h2] at ha
  by_cases hguard : (((List.range ((⌊(mx - mn) / st⌋).toNat + 1)).map
      (fun i : ℕ => mn + st * (i : ℚ))).isEmpty ||
      decide (((List.range ((⌊(mx - mn) / st⌋).toNat + 1)).map
        (fun i : ℕ => mn + st * (i : ℚ))).getLast?.getD mn < mx - 1 / 1000000000)) = true
  · rw [if_pos hguard] at ha
    rcases List.mem_map.mp ha with ⟨v, hv, rfl⟩
    rcases List.mem_append.mp hv with hv2 | hv2
    · exact ⟨v, Or.inl hv2, rfl⟩
    · exact ⟨v, Or.inr (List.mem_singleton.mp hv2), rfl⟩
  · rw [if_neg hguard] at ha
    rcases List.mem_map.mp ha with ⟨v, hv, rfl⟩
    exact ⟨v, Or.inl hv, rfl⟩

/-- Helper: every grid point appears (rounded) among the sampled angles in
the positive-step case. -/
lemma grid_subset_sampled_angles (mn mx st : ℚ) (h1 : ¬ st ≤ 0) (h2 : ¬ mx < mn) (v : ℚ)
    (hv : v ∈ (List.range ((⌊(mx - mn) / st⌋).toNat + 1)).map
      (fun i : ℕ => mn + st * (i : ℚ))) :
    round6 v ∈ sampled_angles mn mx st := by
  unfold sampled_angles
  rw [if_neg h1]
  simp only [if_neg h2]
  by_cases hguard : (((List.range ((⌊(mx - mn) / st⌋).toNat + 1)).map
      (fun i : ℕ => mn + st * (i : ℚ))).isEmpty ||
      decide (((List.range ((⌊(mx - mn) / st⌋).toNat + 1)).map
        (fun i : ℕ => mn + st * (i : ℚ))).getLast?.getD mn < mx - 1 / 1000000000)) = true
  · rw [if_pos hguard]
    exact List.mem_map_of_mem _ (List.mem_append_left _ hv)
  · rw [if_neg hguard]
    exact List.mem_map_of_mem _ hv

/-- C8 amended: the sampling is monotonic under step refinement on a
grid-aligned range: for two runs over the same ordered range whose width is
an exact multiple of the finer step, if run A's step is an integer multiple
of run B's (positive) step, every angle sampled by run A is sampled by
run B.  (As stated over arbitrary ranges and merely smaller steps the
property fails, witnessed by the counterexample.) -/
theorem sampled_angles_step_refinement (lo hi stepB : ℚ) (k N : ℕ)
    (hle : lo ≤ hi) (hstep : 0 < stepB) (hk : 1 ≤ k)
    (hrange : hi - lo = (N : ℚ) * stepB) :
    ∀ a ∈ sampled_angles lo hi ((k : ℚ) * stepB), a ∈ sampled_angles lo hi stepB := by
  intro a ha
  have hkpos_nat : 0 < k := hk
  have hkpos : (0 : ℚ) < (k : ℚ) := by exact_mod_cast hkpos_nat
  have hstepA : (0 : ℚ) < (k : ℚ) * stepB := mul_pos hkpos hstep
  have hnotA : ¬ ((k : ℚ) * stepB ≤ 0) := not_le.mpr hstepA
  have hnotB : ¬ (stepB ≤ 0) := not_le.mpr hstep
  have hnoswap : ¬ (hi < lo) := not_lt.mpr hle
  have hstep_ne : stepB ≠ 0 := ne_of_gt hstep
  have hfloorB : ⌊(hi - lo) / stepB⌋ = (N : ℤ) := by
    rw [hrange, mul_div_assoc, div_self hstep_ne, mul_one]
    exact Int.floor_natCast N
  have hfloorA : ⌊(hi - lo) / ((k : ℚ) * stepB)⌋ = ((N / k : ℕ) : ℤ) := by
    rw [hrange]
    rw [show ((N : ℚ) * stepB) / ((k : ℚ) * stepB) = (N : ℚ) / (k : ℚ) by
      rw [mul_comm (N : ℚ) stepB, mul_comm (k : ℚ) stepB, mul_div_mul_left _ _ hstep_ne]]
    rw [Int.floor_eq_iff]
    constructor
    · rw [le_div_iff₀ hkpos]
      push_cast
      exact_mod_cast Nat.div_mul_le_self N k
    · rw [div_lt_iff₀ hkpos]
      have h2 : N < (N / k + 1) * k := by
        have hmod := Nat.div_add_mod N k
        have hlt := Nat.mod_lt N hkpos_nat
        calc N = k * (N / k) + N % k := hmod.symm
          _ < k * (N / k) + k := by omega
          _ = (N / k + 1) * k := by ring
      exact_mod_cast h2
  have htoA : (⌊(hi - lo) / ((k : ℚ) * stepB)⌋).toNat = N / k := by
    rw [hfloorA]
    exact Int.toNat_natCast _
  have htoB : (⌊(hi - lo) / stepB⌋).toNat = N := by
    rw [hfloorB]
    exact Int.toNat_natCast _
  obtain ⟨v, hv, rfl⟩ := sampled_angles_subset_grid lo hi ((k : ℚ) * stepB) hnotA hnoswap a ha
  apply grid_subset_sampled_angles lo hi stepB hnotB hnoswap v
  rw [htoB]
  rcases hv with hgrid | rfl
  · rw [htoA] at hgrid
    rcases List.mem_map.mp hgrid with ⟨i, hi_mem, rfl⟩
    rw [List.mem_range] at hi_mem
    have hi_le : i ≤ N / k := by omega
    have hki : k * i ≤ N :=
      le_trans (Nat.mul_le_mul_left k hi_le) (by rw [mul_comm]; exact Nat.div_mul_le_self N k)
    refine List.mem_map.mpr ⟨k * i, ?_, ?_⟩
    · rw [List.mem_range]
      omega
    · push_cast
      ring
  · refine List.mem_map.mpr ⟨N, ?_, ?_⟩
    · rw [List.mem_range]
      omega
    · rw [mul_comm] at hrange
      linarith

/-- Witness for the amended C8 at ranges [0, 10], coarse step 2 = 2 × fine
step 1. -/
theorem sampled_angles_step_refinement_witness :
    ((0 : ℚ) ≤ 10 ∧ (0 : ℚ) < 1 ∧ 1 ≤ 2 ∧ (10 : ℚ) - 0 = ((10 : ℕ) : ℚ) * 1 ∧
     (4 : ℚ) ∈ sampled_angles 0 10 (((2 : ℕ) : ℚ) * 1)) ∧
    (4 : ℚ) ∈ sampled_angles 0 10 1 :=
  ⟨⟨by norm_num, by norm_num, by norm_num, by norm_num,
    by rw [show (((2 : ℕ) : ℚ) * 1) = 2 by norm_num, sampled_angles_0_10_2]; decide⟩,
   sampled_angles_step_refinement 0 10 1 2 10 (by norm_num) (by norm_num) (by norm_num)
     (by norm_num) 4
     (by rw [show (((2 : ℕ) : ℚ) * 1) = 2 by norm_num, sampled_angles_0_10_2]; decide)⟩

end Gcsc
